import Mathlib

/-!
# Verification of the Twiggy export-extraction and skeleton-rendering engine

Shallow embedding of `cursor_context/indexer.py` (export extraction and
skeleton rendering) and of the index-update path of
`cursor_context/watcher.py` (debounce gate and the incremental call into the
indexer), together with proofs settling the specification claims about them.

Modelling conventions:
* A syntax-tree node (produced by the external tree-sitter collaborator) is a
  `Node`: its type tag, its byte span into the source buffer, and its ordered
  children — exactly the fields the extractor consumes (`node.type`,
  `node.start_byte`, `node.end_byte`, `node.children`).
* The source buffer is the list of its decoded characters; the verification
  inputs are ASCII, where byte offsets and character offsets coincide, so
  Python's `source[a:b].decode('utf-8')` is `(source.drop a).take (b - a)`.
* Timestamps (`time.time()` returns float seconds) are modelled as integer
  milliseconds, so the 1.0-second debounce delay is 1000; the debounce logic
  only subtracts and compares, which the scaling preserves.
* Fallible external operations (reading the file, parsing, and any error the
  Python `try` block of `_index_file` catches during traversal) are modelled
  as an `Except` value carried with each candidate file.
-/

namespace Twiggy

/-- A syntax-tree node as delivered by the external tree-sitter collaborator:
type tag, byte span into the source buffer, and ordered children. -/
structure Node where
  type : String
  startByte : Nat
  endByte : Nat
  children : List Node

/-- `ExportedItem` (indexer.py lines 16–22): one exported item from a source
file. `methods` defaults to the empty list, as in the dataclass. -/
structure ExportedItem where
  kind : String
  name : String
  signature : String
  methods : List String := []
deriving DecidableEq, Repr

/-- `FileIndex` (indexer.py lines 25–29): the indexed contents of one file. -/
structure FileIndex where
  path : String
  exports : List ExportedItem
deriving DecidableEq, Repr

/-- `TypeScriptExtractor._get_text`:
`source[node.start_byte:node.end_byte].decode('utf-8')`. -/
def get_text (node : Node) (source : List Char) : String :=
  String.mk ((source.drop node.startByte).take (node.endByte - node.startByte))

/-- `TypeScriptExtractor._find_child`: first child of the given type. -/
def find_child (node : Node) (type_name : String) : Option Node :=
  node.children.find? (fun c => c.type == type_name)

/-- The `params = self._get_text(params_node, source) if params_node else '()'`
pattern shared by the function-like extractors. -/
def params_str (node : Node) (source : List Char) : String :=
  match find_child node "formal_parameters" with
  | some p => get_text p source
  | none => "()"

/-- The `return_type = ... if return_type_node else ''` pattern shared by the
function-like extractors (also used for variable/field type annotations). -/
def annotation_str (node : Node) (source : List Char) : String :=
  match find_child node "type_annotation" with
  | some r => get_text r source
  | none => ""

/-- The `type_params_str = ... if type_params else ''` pattern of
`_extract_type_alias` and `_extract_interface`. -/
def type_params_str (node : Node) (source : List Char) : String :=
  match find_child node "type_parameters" with
  | some t => get_text t source
  | none => ""

/-- `TypeScriptExtractor._extract_function` (indexer.py lines 137–153). -/
def extract_function (node : Node) (source : List Char) (is_default : Bool) :
    Option ExportedItem :=
  match find_child node "identifier" with
  | none => none
  | some name_node =>
    let name := get_text name_node source
    let pfx := if is_default then "export default " else "export "
    some { kind := "function", name := name,
           signature := pfx ++ "function " ++ name ++ params_str node source ++
             annotation_str node source }

/-- `TypeScriptExtractor._extract_function_signature` (lines 155–170). -/
def extract_function_sig_decl (node : Node) (source : List Char) :
    Option ExportedItem :=
  match find_child node "identifier" with
  | none => none
  | some name_node =>
    let name := get_text name_node source
    some { kind := "function", name := name,
           signature := "export function " ++ name ++ params_str node source ++
             annotation_str node source }

/-- `TypeScriptExtractor._extract_method_signature` (lines 205–234): skips
members carrying a `private` modifier, renders `[async ][static ]NAME(PARAMS)[: RET]`. -/
def extract_method_sig (node : Node) (source : List Char) : Option String :=
  if node.children.any (fun c =>
      (c.type == "private" || c.type == "accessibility_modifier") &&
      (get_text c source == "private")) then
    none
  else
    match find_child node "property_identifier" with
    | none => none
    | some name_node =>
      let name := get_text name_node source
      let modifiers := node.children.filterMap (fun c =>
        if c.type == "async" then some "async"
        else if c.type == "static" then some "static"
        else none)
      let pfx := if modifiers.isEmpty then "" else String.intercalate " " modifiers ++ " "
      some (pfx ++ name ++ params_str node source ++ annotation_str node source)

/-- `TypeScriptExtractor._extract_field_signature` (lines 236–246). -/
def extract_field_sig (node : Node) (source : List Char) : Option String :=
  match find_child node "property_identifier" with
  | none => none
  | some name_node =>
    some (get_text name_node source ++ annotation_str node source)

/-- `TypeScriptExtractor._extract_class` (lines 172–203). -/
def extract_class (node : Node) (source : List Char) (is_default : Bool) :
    Option ExportedItem :=
  let name_node :=
    match find_child node "identifier" with
    | some n => some n
    | none => find_child node "type_identifier"
  match name_node with
  | none => none
  | some nn =>
    let name := get_text nn source
    let heritage :=
      match find_child node "class_heritage" with
      | some h => " " ++ get_text h source
      | none => ""
    let methods :=
      match find_child node "class_body" with
      | none => []
      | some body => body.children.filterMap (fun member =>
          if member.type == "method_definition" then extract_method_sig member source
          else if member.type == "public_field_definition" then extract_field_sig member source
          else none)
    let pfx := if is_default then "export default " else "export "
    some { kind := "class", name := name,
           signature := pfx ++ "class " ++ name ++ heritage, methods := methods }

/-- The `type_value` computation of `_extract_type_alias` (lines 261–267): the
text of the first child whose type is none of
`export/type/type_identifier/type_parameters/=`, or empty. -/
def type_value_of (node : Node) (source : List Char) : String :=
  match node.children.find? (fun c =>
      !((["export", "type", "type_identifier", "type_parameters", "="] : List String).contains c.type)) with
  | some t => get_text t source
  | none => ""

/-- The truncation of `_extract_type_alias` (lines 269–271):
`if len(type_value) > 100: type_value = type_value[:97] + '...'`. -/
def truncate_type_value (type_value : String) : String :=
  if type_value.length > 100 then type_value.take 97 ++ "..." else type_value

/-- `TypeScriptExtractor._extract_type_alias` (lines 248–275). -/
def extract_type_alias (node : Node) (source : List Char) : Option ExportedItem :=
  match find_child node "type_identifier" with
  | none => none
  | some name_node =>
    some { kind := "type", name := get_text name_node source,
           signature := "export type " ++ get_text name_node source ++
             type_params_str node source ++ " = " ++
             truncate_type_value (type_value_of node source) }

/-- `TypeScriptExtractor._extract_property_signature` (lines 313–327). -/
def extract_property_sig (node : Node) (source : List Char) : Option String :=
  match find_child node "property_identifier" with
  | none => none
  | some name_node =>
    let optional := if (find_child node "?").isSome then "?" else ""
    some (get_text name_node source ++ optional ++ annotation_str node source)

/-- `TypeScriptExtractor._extract_interface_method_signature` (lines 329–342). -/
def extract_interface_method_sig (node : Node) (source : List Char) : Option String :=
  match find_child node "property_identifier" with
  | none => none
  | some name_node =>
    some (get_text name_node source ++ params_str node source ++ annotation_str node source)

/-- `TypeScriptExtractor._extract_interface` (lines 277–311). -/
def extract_interface (node : Node) (source : List Char) : Option ExportedItem :=
  match find_child node "type_identifier" with
  | none => none
  | some name_node =>
    let name := get_text name_node source
    let ext :=
      match find_child node "extends_type_clause" with
      | some e => " " ++ get_text e source
      | none => ""
    let body :=
      match find_child node "interface_body" with
      | some b => some b
      | none => find_child node "object_type"
    let properties :=
      match body with
      | none => []
      | some b => b.children.filterMap (fun member =>
          if member.type == "property_signature" then extract_property_sig member source
          else if member.type == "method_signature" then extract_interface_method_sig member source
          else none)
    some { kind := "interface", name := name,
           signature := "export interface " ++ name ++ type_params_str node source ++ ext,
           methods := properties }

/-- The `params` computation of `_extract_variable_declarator`'s
arrow-function branch (lines 385–391): a missing `formal_parameters` node
means a single parameter written without parentheses; it is wrapped in
parentheses, and an unlocatable parameter renders as `()`. -/
def arrow_params_str (v : Node) (source : List Char) : String :=
  match find_child v "formal_parameters" with
  | some p => get_text p source
  | none =>
    match find_child v "identifier" with
    | some param_node => "(" ++ get_text param_node source ++ ")"
    | none => "()"

/-- `TypeScriptExtractor._extract_variable_declarator` (lines 364–408): a
declarator without a bindable identifier (destructuring) is skipped; a
function-valued initializer renders with its body elided. -/
def extract_variable_declarator (node : Node) (source : List Char) (keyword : String) :
    Option ExportedItem :=
  match find_child node "identifier" with
  | none => none
  | some name_node =>
    match node.children.find? (fun c =>
        (["arrow_function", "function_expression", "function"] : List String).contains c.type) with
    | some v =>
      if v.type == "arrow_function" then
        some { kind := "function", name := get_text name_node source,
               signature := "export " ++ keyword ++ " " ++ get_text name_node source ++ " = " ++
                 arrow_params_str v source ++ annotation_str v source ++ " => ..." }
      else
        some { kind := "function", name := get_text name_node source,
               signature := "export " ++ keyword ++ " " ++ get_text name_node source ++
                 " = function" ++ params_str v source ++ annotation_str v source }
    | none =>
      some { kind := if keyword == "const" then "const" else "variable",
             name := get_text name_node source,
             signature := "export " ++ keyword ++ " " ++ get_text name_node source ++
               annotation_str node source }

/-- The `keyword` computation of `_extract_lexical_declaration` (lines
348–353): the first `const`/`let`/`var` child's type, defaulting to `const`. -/
def lexical_keyword (node : Node) : String :=
  match node.children.find? (fun c => (["const", "let", "var"] : List String).contains c.type) with
  | some k => k.type
  | none => "const"

/-- `TypeScriptExtractor._extract_lexical_declaration` (lines 344–362). -/
def extract_lexical_declaration (node : Node) (source : List Char) : List ExportedItem :=
  (node.children.filter (fun c => c.type == "variable_declarator")).filterMap
    (fun c => extract_variable_declarator c source (lexical_keyword node))

/-- `TypeScriptExtractor._extract_enum` (lines 410–429). -/
def extract_enum (node : Node) (source : List Char) : Option ExportedItem :=
  match find_child node "identifier" with
  | none => none
  | some name_node =>
    let name := get_text name_node source
    let members :=
      match find_child node "enum_body" with
      | none => []
      | some body => body.children.filterMap (fun c =>
          if c.type == "enum_member" then
            match find_child c "property_identifier" with
            | some m => some (get_text m source)
            | none => none
          else none)
    some { kind := "enum", name := name, signature := "export enum " ++ name,
           methods := members }

/-- The per-child dispatch of `_process_export_statement` (lines 92–119). -/
def dispatch_export_child (is_default : Bool) (child : Node) (source : List Char) :
    List ExportedItem :=
  if child.type == "function_declaration" then (extract_function child source is_default).toList
  else if child.type == "class_declaration" then (extract_class child source is_default).toList
  else if child.type == "type_alias_declaration" then (extract_type_alias child source).toList
  else if child.type == "interface_declaration" then (extract_interface child source).toList
  else if child.type == "lexical_declaration" then extract_lexical_declaration child source
  else if child.type == "enum_declaration" then (extract_enum child source).toList
  else if child.type == "function_signature" then (extract_function_sig_decl child source).toList
  else []

/-- `TypeScriptExtractor._process_export_statement` (lines 85–120). -/
def process_export_statement (node : Node) (source : List Char) : List ExportedItem :=
  let is_default := node.children.any (fun c => c.type == "default")
  node.children.flatMap (fun child => dispatch_export_child is_default child source)

/-- `TypeScriptExtractor.extract_exports` (lines 74–83): only direct children
of the root that are export statements are processed. -/
def extract_exports (tree : Node) (source : List Char) : List ExportedItem :=
  (tree.children.filter (fun c => c.type == "export_statement")).flatMap
    (fun c => process_export_statement c source)

/-- `SkeletonGenerator._format_export` (indexer.py lines 486–494): composite
kinds with members render signature plus a brace block of at most the first 10
members, with a `// ... and N more` marker when more than 10 exist. -/
def format_export (e : ExportedItem) : String :=
  if (["class", "interface", "enum"] : List String).contains e.kind && !e.methods.isEmpty then
    let method_lines := String.intercalate "\n" ((e.methods.take 10).map (fun m => "  " ++ m))
    let method_lines :=
      if e.methods.length > 10 then
        method_lines ++ "\n  // ... and " ++ toString (e.methods.length - 10) ++ " more"
      else method_lines
    e.signature ++ " \x7b\n" ++ method_lines ++ "\n\x7d"
  else e.signature

/-- The `sorted(file_indices, key=lambda x: x.path)` of `_format_indices`:
Python `sorted` is a stable ascending sort by the key. -/
def sort_by_path (file_indices : List FileIndex) : List FileIndex :=
  file_indices.mergeSort (fun a b => decide (a.path ≤ b.path))

/-- `SkeletonGenerator._format_indices` (lines 469–484): path-sorted; entries
with no exports are skipped; each remaining entry contributes a path-marker
line, one line (or block) per export, and a blank separator line. -/
def format_indices (file_indices : List FileIndex) : String :=
  String.intercalate "\n"
    ((sort_by_path file_indices).flatMap (fun file_index =>
      if file_index.exports.isEmpty then []
      else ("// " ++ file_index.path) :: (file_index.exports.map format_export ++ [""])))

/-- `SkeletonGenerator._build_content` (lines 451–467) with the packaged
template fixed to `_get_fallback_template` (lines 496–506); the template text
is a constant of the build, so the artifact varies only with the project name
and the Index handed in. -/
def build_content (project_name : String) (file_indices : List FileIndex) : String :=
  "---\nalwaysApply: true\n---\n\n# " ++ project_name ++ " Codebase Index\n\n" ++
  "This file provides an index of exported functions, types, interfaces, " ++
  "classes, and constants in your codebase. Updated in real-time by Twiggy.\n\n" ++
  "Use this index to discover existing utilities and avoid duplicating code.\n\n" ++
  "```typescript\n" ++ format_indices file_indices ++ "\n```\n"

/-- The extension→grammar table of `TreeSitterParser.get_language_for_file`
(indexer.py lines 58–68). -/
def ext_map : List (String × String) :=
  [(".ts", "typescript"), (".tsx", "tsx"), (".js", "javascript"),
   (".jsx", "jsx"), (".mjs", "javascript"), (".cjs", "javascript")]

/-- `pathlib.Path.suffix` on a slash path: with `i` the index of the last `.`
in the last path component `name`, the suffix is `name[i:]` when
`0 < i < len(name) - 1` and empty otherwise (the rule in pathlib's source). -/
def path_suffix (path : String) : String :=
  let name := (path.data.reverse.takeWhile (fun c => c != '/')).reverse
  let after := name.reverse.takeWhile (fun c => c != '.')
  if after.length = name.length then ""
  else
    let i := name.length - 1 - after.length
    if 0 < i ∧ i < name.length - 1 then String.mk ('.' :: after.reverse) else ""

/-- `TreeSitterParser.get_language_for_file` (lines 58–68): pure,
case-insensitive (`suffix.lower()`) lookup in the extension table. -/
def get_language_for_file (path : String) : Option String :=
  ext_map.lookup (String.mk ((path_suffix path).data.map Char.toLower))

/-- The languages for which `TreeSitterParser.get_parser` returns a parser and
`CodebaseIndexer.extractors` holds an extractor (lines 40–45 and 518–523). -/
def supported_languages : List String := ["typescript", "tsx", "javascript", "jsx"]

/-- One candidate file handed to `CodebaseIndexer._index_file`: its
project-relative slash path (the form `_index_file` stores after
`relative_to`/`replace`) and the outcome of the fallible steps inside its
`try` block — reading the file, `parser.parse`, and anything the traversal
raises. `.ok` carries the parsed tree and the decoded source buffer. -/
structure CandidateFile where
  path : String
  parsed : Except Unit (Node × List Char)

/-- `CodebaseIndexer._index_file` (indexer.py lines 553–579): unknown language
or missing parser/extractor yields nothing; any exception inside the `try`
yields nothing; otherwise the file's extraction result becomes its FileIndex. -/
def index_file (f : CandidateFile) : Option FileIndex :=
  match get_language_for_file f.path with
  | none => none
  | some language =>
    if supported_languages.contains language then
      match f.parsed with
      | Except.error _ => none
      | Except.ok (tree, source) => some { path := f.path, exports := extract_exports tree source }
    else none

/-- `CodebaseIndexer._index_all_files` (lines 530–539): keep an index only
when `_index_file` succeeded and produced a non-empty export list. -/
def index_all_files (files : List CandidateFile) : List FileIndex :=
  files.filterMap (fun f =>
    match index_file f with
    | some index => if index.exports.isEmpty then none else some index
    | none => none)

/-- `CodebaseIndexer.index_and_generate` (lines 525–528): the sole indexing
entry point; it always re-indexes every discovered file and renders from
scratch. The value is the artifact content written to the output file. -/
def index_and_generate (project_name : String) (files : List CandidateFile) : String :=
  build_content project_name (index_all_files files)

/-- The parameter names `CodebaseIndexer.index_and_generate` declares besides
`self` (indexer.py line 525: `def index_and_generate(self) -> Path:`). -/
def index_and_generate_param_names : List String := []

/-- The keyword arguments `CursorContextHandler.update_index` passes to
`indexer.index_and_generate` (watcher.py lines 95–99). -/
def update_index_call_kwargs : List String := ["changed_path", "event_type", "src_path"]

/-- Python call semantics for keyword arguments: binding the passed keywords
against the declared parameter names raises `TypeError` as soon as a keyword
matches no declared parameter. -/
def bind_kwargs (declared : List String) (kwargs : List String) : Except String Unit :=
  match kwargs.find? (fun k => !(declared.contains k)) with
  | some k => Except.error ("TypeError: index_and_generate() got an unexpected keyword argument " ++ k)
  | none => Except.ok ()

/-- `self.update_delay = 1.0` seconds (watcher.py line 26), in milliseconds. -/
def update_delay : Int := 1000

/-- The debounce gate at the head of `CursorContextHandler.update_index`
(watcher.py lines 87–92): an event inside the window returns immediately and
leaves `last_index_update` unchanged; otherwise `last_index_update` is set to
the current time and the recomputation is attempted. The Bool records whether
the gate fired (a recomputation was attempted). -/
def index_debounce_step (last_index_update now : Int) : Bool × Int :=
  if now - last_index_update < update_delay then (false, last_index_update)
  else (true, now)

/-- Feeding a sequence of change-notification timestamps through the debounce
gate, starting from a given `last_index_update`; returns how many
recomputations were triggered and the final `last_index_update`. The handler
state holds nothing else — in particular no pending timer — so notifications
for which the gate did not fire can never trigger a recomputation later. -/
def run_index_events : Int → List Int → Nat × Int
  | last, [] => (0, last)
  | last, t :: ts =>
    let step := index_debounce_step last t
    let rest := run_index_events step.2 ts
    ((if step.1 then 1 else 0) + rest.1, rest.2)

/-- Outcome of one `CursorContextHandler.update_index` call. -/
inductive UpdateIndexResult where
  | skipped
  | errorPrinted (msg : String)
  | wrote
deriving DecidableEq, Repr

/-- `CursorContextHandler.update_index` (watcher.py lines 85–102) for an
incremental change event: past the debounce gate it sets `last_index_update`
and then calls `self.indexer.index_and_generate(changed_path=..., event_type=...,
src_path=...)` inside `try`; the `except` prints the error and returns, leaving
the artifact untouched. -/
def update_index (last_index_update now : Int) : UpdateIndexResult × Int :=
  if now - last_index_update < update_delay then (.skipped, last_index_update)
  else
    match bind_kwargs index_and_generate_param_names update_index_call_kwargs with
    | Except.error msg => (.errorPrinted msg, now)
    | Except.ok _ => (.wrote, now)

/-- The closed set of values the extractors ever write into `ExportedItem.kind`
(the set named in the `ExportedItem` dataclass comment). -/
def kinds_closed : List String :=
  ["function", "class", "interface", "type", "enum", "const", "variable"]

/-- The node types `_process_export_statement` dispatches on. -/
def supported_decl_types : List String :=
  ["function_declaration", "class_declaration", "type_alias_declaration",
   "interface_declaration", "lexical_declaration", "enum_declaration",
   "function_signature"]

/-! ## Concrete inputs used by the witnesses and counterexamples

The trees mirror tree-sitter's output shape on the respective sources (node
types, byte spans, children); sources are ASCII. -/

/-- `export function add(a: number, b: number): number { return a+b; }` -/
def scenarioA_source : List Char :=
  "export function add(a: number, b: number): number \x7b return a+b; \x7d".toList

def scenarioA_fn : Node :=
  ⟨"function_declaration", 7, 65,
    [⟨"function", 7, 15, []⟩, ⟨"identifier", 16, 19, []⟩,
     ⟨"formal_parameters", 19, 41, []⟩, ⟨"type_annotation", 41, 49, []⟩,
     ⟨"statement_block", 50, 65, []⟩]⟩

def scenarioA_export : Node :=
  ⟨"export_statement", 0, 65, [⟨"export", 0, 6, []⟩, scenarioA_fn]⟩

/-- `export const fn = (x: number) => x + 1;` -/
def scenarioB_source : List Char := "export const fn = (x: number) => x + 1;".toList

def scenarioB_params : Node := ⟨"formal_parameters", 18, 29, []⟩

def scenarioB_name : Node := ⟨"identifier", 13, 15, []⟩

def scenarioB_arrow : Node :=
  ⟨"arrow_function", 18, 38,
    [scenarioB_params, ⟨"=>", 30, 32, []⟩, ⟨"binary_expression", 33, 38, []⟩]⟩

def scenarioB_decl : Node :=
  ⟨"variable_declarator", 13, 38, [scenarioB_name, ⟨"=", 16, 17, []⟩, scenarioB_arrow]⟩

/-- `export const f = function(x: number): number { return x; };` — a
declarator whose initializer is a function expression, not an arrow
function. -/
def c6fx_source : List Char :=
  "export const f = function(x: number): number \x7b return x; \x7d;".toList

def c6fx_name : Node := ⟨"identifier", 13, 14, []⟩

def c6fx_value : Node :=
  ⟨"function_expression", 17, 58,
    [⟨"function", 17, 25, []⟩, ⟨"formal_parameters", 25, 36, []⟩,
     ⟨"type_annotation", 36, 44, []⟩, ⟨"statement_block", 45, 58, []⟩]⟩

def c6fx_decl : Node :=
  ⟨"variable_declarator", 13, 58, [c6fx_name, ⟨"=", 15, 16, []⟩, c6fx_value]⟩

/-- `export var x = 1;` — tree-sitter wraps a `var` statement in a
`variable_declaration` node (not `lexical_declaration`). -/
def c9var_source : List Char := "export var x = 1;".toList

def c9var_decl : Node :=
  ⟨"variable_declarator", 11, 16,
    [⟨"identifier", 11, 12, []⟩, ⟨"=", 13, 14, []⟩, ⟨"number", 15, 16, []⟩]⟩

def c9var_declaration : Node :=
  ⟨"variable_declaration", 7, 17, [⟨"var", 7, 10, []⟩, c9var_decl, ⟨";", 16, 17, []⟩]⟩

def c9var_export : Node :=
  ⟨"export_statement", 0, 17, [⟨"export", 0, 6, []⟩, c9var_declaration]⟩

def c9var_tree : Node := ⟨"program", 0, 17, [c9var_export]⟩

/-- `export const id = x => x;` — arrow function whose single parameter is
written without parentheses, so there is no `formal_parameters` node. -/
def c10_source : List Char := "export const id = x => x;".toList

def c10_param : Node := ⟨"identifier", 18, 19, []⟩

def c10_name : Node := ⟨"identifier", 13, 15, []⟩

def c10_arrow : Node :=
  ⟨"arrow_function", 18, 24, [c10_param, ⟨"=>", 20, 22, []⟩, ⟨"identifier", 23, 24, []⟩]⟩

def c10_decl : Node :=
  ⟨"variable_declarator", 13, 24, [c10_name, ⟨"=", 16, 17, []⟩, c10_arrow]⟩

/-- `export type T = {` newline `  a: string` newline `}` — a type alias whose
right-hand text spans several lines (and stays under 100 characters). -/
def c7_source : List Char := "export type T = \x7b\n  a: string\n\x7d".toList

def c7_value : Node := ⟨"object_type", 16, 31, []⟩

def c7_alias : Node :=
  ⟨"type_alias_declaration", 7, 31,
    [⟨"type", 7, 11, []⟩, ⟨"type_identifier", 12, 13, []⟩, ⟨"=", 14, 15, []⟩, c7_value]⟩

def c7_export : Node :=
  ⟨"export_statement", 0, 31, [⟨"export", 0, 6, []⟩, c7_alias]⟩

def c7_tree : Node := ⟨"program", 0, 31, [c7_export]⟩

def c7_item : ExportedItem :=
  { kind := "type", name := "T", signature := "export type T = \x7b\n  a: string\n\x7d" }

/-- `export type T = ` followed by 150 `a` characters. -/
def c4_source_long : List Char := "export type T = ".toList ++ List.replicate 150 'a'

def c4_name_long : Node := ⟨"type_identifier", 12, 13, []⟩

def c4_value_long : Node := ⟨"union_type", 16, 166, []⟩

def c4_alias_long : Node :=
  ⟨"type_alias_declaration", 7, 166,
    [⟨"type", 7, 11, []⟩, c4_name_long, ⟨"=", 14, 15, []⟩, c4_value_long]⟩

/-- `export type Id = string` -/
def c4_source_short : List Char := "export type Id = string".toList

def c4_name_short : Node := ⟨"type_identifier", 12, 14, []⟩

def c4_value_short : Node := ⟨"predefined_type", 17, 23, []⟩

def c4_alias_short : Node :=
  ⟨"type_alias_declaration", 7, 23,
    [⟨"type", 7, 11, []⟩, c4_name_short, ⟨"=", 15, 16, []⟩, c4_value_short]⟩

/-- Candidate files for the fault-isolation claim: one healthy file, one whose
read/parse step raises, one healthy file with no exports. -/
def c8_good : CandidateFile :=
  ⟨"src/a.ts", Except.ok (⟨"program", 0, 65, [scenarioA_export]⟩, scenarioA_source)⟩

def c8_bad : CandidateFile := ⟨"src/b.ts", Except.error ()⟩

def c8_other : CandidateFile := ⟨"src/c.ts", Except.ok (⟨"program", 0, 0, []⟩, [])⟩

/-! ## Helper lemmas -/

lemma length_toList (o : Option α) : o.toList.length = if o.isSome then 1 else 0 := by
  cases o <;> rfl

lemma string_length_take (s : String) (n : Nat) : (s.take n).length = min n s.length := by
  show (s.take n).data.length = min n s.data.length
  rw [String.data_take, List.length_take]

lemma length_filterMap_of_isSome (f : α → Option β) (p : α → Bool)
    (hf : ∀ a, (f a).isSome = p a) (l : List α) :
    (l.filterMap f).length = (l.filter p).length := by
  induction l with
  | nil => rfl
  | cons a l ih =>
    have h := hf a
    cases hfa : f a with
    | none =>
      simp only [hfa, Option.isSome_none] at h
      simp [List.filterMap_cons, hfa, List.filter_cons, ← h, ih]
    | some b =>
      simp only [hfa, Option.isSome_some] at h
      simp [List.filterMap_cons, hfa, List.filter_cons, ← h, ih]

lemma extract_function_isSome (d : Node) (s : List Char) (b : Bool) :
    (extract_function d s b).isSome = (find_child d "identifier").isSome := by
  unfold extract_function
  cases find_child d "identifier" <;> simp

lemma extract_function_sig_decl_isSome (d : Node) (s : List Char) :
    (extract_function_sig_decl d s).isSome = (find_child d "identifier").isSome := by
  unfold extract_function_sig_decl
  cases find_child d "identifier" <;> simp

lemma extract_class_isSome (d : Node) (s : List Char) (b : Bool) :
    (extract_class d s b).isSome =
      ((find_child d "identifier").isSome || (find_child d "type_identifier").isSome) := by
  unfold extract_class
  cases h1 : find_child d "identifier" <;> cases h2 : find_child d "type_identifier" <;> simp [h1, h2]

lemma extract_type_alias_isSome (d : Node) (s : List Char) :
    (extract_type_alias d s).isSome = (find_child d "type_identifier").isSome := by
  unfold extract_type_alias
  cases find_child d "type_identifier" <;> simp

lemma extract_interface_isSome (d : Node) (s : List Char) :
    (extract_interface d s).isSome = (find_child d "type_identifier").isSome := by
  unfold extract_interface
  cases find_child d "type_identifier" <;> simp

lemma extract_enum_isSome (d : Node) (s : List Char) :
    (extract_enum d s).isSome = (find_child d "identifier").isSome := by
  unfold extract_enum
  cases find_child d "identifier" <;> simp

lemma extract_variable_declarator_isSome (c : Node) (s : List Char) (kw : String) :
    (extract_variable_declarator c s kw).isSome = (find_child c "identifier").isSome := by
  unfold extract_variable_declarator
  split
  · rename_i heq
    rw [heq]
    rfl
  · rename_i nn heq
    rw [heq]
    split
    · split <;> rfl
    · rfl

lemma extract_function_fields (d : Node) (s : List Char) (b : Bool) (i : ExportedItem)
    (h : extract_function d s b = some i) : i.kind = "function" ∧ i.methods = [] := by
  unfold extract_function at h
  cases hf : find_child d "identifier" <;> simp [hf] at h
  exact ⟨by rw [← h], by rw [← h]⟩

lemma extract_function_sig_decl_fields (d : Node) (s : List Char) (i : ExportedItem)
    (h : extract_function_sig_decl d s = some i) : i.kind = "function" ∧ i.methods = [] := by
  unfold extract_function_sig_decl at h
  cases hf : find_child d "identifier" <;> simp [hf] at h
  exact ⟨by rw [← h], by rw [← h]⟩

lemma extract_class_fields (d : Node) (s : List Char) (b : Bool) (i : ExportedItem)
    (h : extract_class d s b = some i) : i.kind = "class" := by
  unfold extract_class at h
  cases h1 : find_child d "identifier" <;> simp [h1] at h
  · cases h2 : find_child d "type_identifier" <;> simp [h2] at h
    rw [← h]
  · rw [← h]

lemma extract_type_alias_fields (d : Node) (s : List Char) (i : ExportedItem)
    (h : extract_type_alias d s = some i) : i.kind = "type" ∧ i.methods = [] := by
  unfold extract_type_alias at h
  cases hf : find_child d "type_identifier" <;> simp [hf] at h
  exact ⟨by rw [← h], by rw [← h]⟩

lemma extract_interface_fields (d : Node) (s : List Char) (i : ExportedItem)
    (h : extract_interface d s = some i) : i.kind = "interface" := by
  unfold extract_interface at h
  cases hf : find_child d "type_identifier" <;> simp [hf] at h
  rw [← h]

lemma extract_enum_fields (d : Node) (s : List Char) (i : ExportedItem)
    (h : extract_enum d s = some i) : i.kind = "enum" := by
  unfold extract_enum at h
  cases hf : find_child d "identifier" <;> simp [hf] at h
  rw [← h]

lemma extract_variable_declarator_fields (c : Node) (s : List Char) (kw : String)
    (i : ExportedItem) (h : extract_variable_declarator c s kw = some i) :
    (i.kind = "function" ∨ i.kind = "const" ∨ i.kind = "variable") ∧ i.methods = [] := by
  unfold extract_variable_declarator at h
  split at h
  · exact absurd h (by simp)
  · split at h
    · split at h
      · injection h with h
        subst h
        exact ⟨Or.inl rfl, rfl⟩
      · injection h with h
        subst h
        exact ⟨Or.inl rfl, rfl⟩
    · injection h with h
      subst h
      refine ⟨?_, rfl⟩
      by_cases hkw : kw == "const" <;> simp [hkw]

lemma extract_lexical_declaration_mem (d : Node) (s : List Char) (i : ExportedItem)
    (h : i ∈ extract_lexical_declaration d s) :
    (i.kind = "function" ∨ i.kind = "const" ∨ i.kind = "variable") ∧ i.methods = [] := by
  unfold extract_lexical_declaration at h
  rw [List.mem_filterMap] at h
  obtain ⟨c, _, hc⟩ := h
  exact extract_variable_declarator_fields c s _ i hc

lemma mem_toList_eq (o : Option α) (x : α) (h : x ∈ o.toList) : o = some x := by
  cases o <;> simp_all

lemma dispatch_fields (b : Bool) (ch : Node) (s : List Char) (i : ExportedItem)
    (h : i ∈ dispatch_export_child b ch s) :
    i.kind ∈ kinds_closed ∧
      (i.methods ≠ [] → i.kind ∈ (["class", "interface", "enum"] : List String)) := by
  unfold dispatch_export_child at h
  split at h
  · obtain ⟨hk, hm⟩ := extract_function_fields ch s b i (mem_toList_eq _ _ h)
    exact ⟨by simp [kinds_closed, hk], fun hne => (hne hm).elim⟩
  · split at h
    · have hk := extract_class_fields ch s b i (mem_toList_eq _ _ h)
      exact ⟨by simp [kinds_closed, hk], fun _ => by simp [hk]⟩
    · split at h
      · obtain ⟨hk, hm⟩ := extract_type_alias_fields ch s i (mem_toList_eq _ _ h)
        exact ⟨by simp [kinds_closed, hk], fun hne => (hne hm).elim⟩
      · split at h
        · have hk := extract_interface_fields ch s i (mem_toList_eq _ _ h)
          exact ⟨by simp [kinds_closed, hk], fun _ => by simp [hk]⟩
        · split at h
          · obtain ⟨hk, hm⟩ := extract_lexical_declaration_mem ch s i h
            refine ⟨?_, fun hne => (hne hm).elim⟩
            rcases hk with hk | hk | hk <;> simp [kinds_closed, hk]
          · split at h
            · have hk := extract_enum_fields ch s i (mem_toList_eq _ _ h)
              exact ⟨by simp [kinds_closed, hk], fun _ => by simp [hk]⟩
            · split at h
              · obtain ⟨hk, hm⟩ := extract_function_sig_decl_fields ch s i (mem_toList_eq _ _ h)
                exact ⟨by simp [kinds_closed, hk], fun hne => (hne hm).elim⟩
              · exact absurd h (List.not_mem_nil i)

lemma process_export_statement_fields (e : Node) (s : List Char) (i : ExportedItem)
    (h : i ∈ process_export_statement e s) :
    i.kind ∈ kinds_closed ∧
      (i.methods ≠ [] → i.kind ∈ (["class", "interface", "enum"] : List String)) := by
  simp only [process_export_statement, List.mem_flatMap] at h
  obtain ⟨ch, _, hch⟩ := h
  exact dispatch_fields _ ch s i hch

lemma dispatch_not_supported (b : Bool) (ch : Node) (s : List Char)
    (h : ¬ ch.type ∈ supported_decl_types) : dispatch_export_child b ch s = [] := by
  simp only [supported_decl_types, List.mem_cons, List.not_mem_nil, or_false, not_or] at h
  obtain ⟨h1, h2, h3, h4, h5, h6, h7⟩ := h
  simp [dispatch_export_child, h1, h2, h3, h4, h5, h6, h7]

/-- The declaration `d` wrapped in an export statement is of a supported kind
and its extractor can locate its name, mirroring each extractor's
`if not name_node: return None` guard (for a lexical declaration: exactly one
declarator has a bindable identifier). -/
def named_supported_decl (d : Node) : Prop :=
  (d.type = "function_declaration" ∧ (find_child d "identifier").isSome = true) ∨
  (d.type = "class_declaration" ∧
    ((find_child d "identifier").isSome || (find_child d "type_identifier").isSome) = true) ∨
  (d.type = "type_alias_declaration" ∧ (find_child d "type_identifier").isSome = true) ∨
  (d.type = "interface_declaration" ∧ (find_child d "type_identifier").isSome = true) ∨
  (d.type = "lexical_declaration" ∧
    ((d.children.filter (fun c => c.type == "variable_declarator")).filter
      (fun c => (find_child c "identifier").isSome)).length = 1) ∨
  (d.type = "enum_declaration" ∧ (find_child d "identifier").isSome = true) ∨
  (d.type = "function_signature" ∧ (find_child d "identifier").isSome = true)

instance (d : Node) : Decidable (named_supported_decl d) := by
  unfold named_supported_decl
  infer_instance

lemma dispatch_named_supported_length (b : Bool) (d : Node) (s : List Char)
    (hd : named_supported_decl d) : (dispatch_export_child b d s).length = 1 := by
  rcases hd with ⟨h1, hs⟩ | ⟨h2, hs⟩ | ⟨h3, hs⟩ | ⟨h4, hs⟩ | ⟨h5, hs⟩ | ⟨h6, hs⟩ | ⟨h7, hs⟩
  · simp [dispatch_export_child, h1, length_toList, extract_function_isSome, hs]
  · simp [dispatch_export_child, h2, length_toList, extract_class_isSome, hs]
  · simp [dispatch_export_child, h3, length_toList, extract_type_alias_isSome, hs]
  · simp [dispatch_export_child, h4, length_toList, extract_interface_isSome, hs]
  · simp only [dispatch_export_child, h5]
    rw [if_neg (by decide), if_neg (by decide), if_neg (by decide), if_neg (by decide),
      if_pos (by decide)]
    unfold extract_lexical_declaration
    rw [length_filterMap_of_isSome _ (fun c => (find_child c "identifier").isSome)
      (fun a => extract_variable_declarator_isSome a s (lexical_keyword d))]
    exact hs
  · simp [dispatch_export_child, h6, length_toList, extract_enum_isSome, hs]
  · simp [dispatch_export_child, h7, length_toList, extract_function_sig_decl_isSome, hs]

/-! ## Claims -/

/-- C1: the claim says an incremental change event updates only the changed
path's FileIndex entry and carries every other entry over unchanged. The code
cannot do this: `CodebaseIndexer.index_and_generate` declares no parameters
besides `self`, yet `CursorContextHandler.update_index` calls it with the
keyword arguments `changed_path`, `event_type` and `src_path`, so every
incremental pass that survives the debounce gate raises `TypeError`, which the
handler catches and prints — no index update happens at all (and the only
indexing routine that exists always re-scans every file). Evaluated here for
an event at t = 1500 ms with the previous update at t = 0. -/
theorem c1_incremental_call_raises_type_error :
    update_index 0 1500 =
      (UpdateIndexResult.errorPrinted
        "TypeError: index_and_generate() got an unexpected keyword argument changed_path", 1500) ∧
    index_and_generate_param_names = [] := by
  exact ⟨by decide, rfl⟩

/-- C2 counterexample: with the previous recomputation at t = 0 ms, a burst of
two notifications at 300 ms and 600 ms — both inside the 1000 ms window — is
claimed to trigger exactly one recomputation (from the most recent one) once
the window elapses. Instead the gate fires zero times, and the resulting
handler state is just `last_index_update = 0`: it holds no pending work, so
nothing can fire after the window elapses either; the burst's effect is
permanently lost. -/
theorem c2_burst_triggers_no_recomputation :
    run_index_events 0 [300, 600] = (0, 0) := by
  decide

/-- C2 (amended): the debounce gate of `update_index` is a leading-edge
throttle, not a coalescing debounce: a notification strictly inside the fixed
1.0 s window since the last recomputation attempt is dropped outright (state
unchanged, no recomputation then or later), while a notification at or past
the window boundary triggers exactly one immediate recomputation attempt and
resets the timer. -/
theorem c2_debounce_gate_is_leading_edge_throttle (last now : Int) :
    (now - last < update_delay → index_debounce_step last now = (false, last)) ∧
    (¬ now - last < update_delay → index_debounce_step last now = (true, now)) := by
  constructor <;> intro h <;> simp [index_debounce_step, h]

theorem c2_debounce_gate_witness :
    index_debounce_step 0 600 = (false, 0) ∧ index_debounce_step 0 1200 = (true, 1200) :=
  ⟨(c2_debounce_gate_is_leading_edge_throttle 0 600).1 (by decide),
   (c2_debounce_gate_is_leading_edge_throttle 0 1200).2 (by decide)⟩

/-- C3: rendering is a pure function — rendering twice from an unchanged Index
(same project name and packaged template, which are fixed for the process)
produces byte-identical artifact text. -/
theorem c3_render_deterministic (project_name : String) (index1 index2 : List FileIndex)
    (h : index1 = index2) :
    build_content project_name index1 = build_content project_name index2 := by
  rw [h]

theorem c3_render_deterministic_witness :
    build_content "app"
      [{ path := "a.ts", exports := [{ kind := "function", name := "f", signature := "export function f(): void" }] }] =
    build_content "app"
      [{ path := "a.ts", exports := [{ kind := "function", name := "f", signature := "export function f(): void" }] }] :=
  c3_render_deterministic "app" _ _ rfl

/-- C4: for an exported type alias declaration whose name and right-hand type
node are locatable, a right-hand text longer than 100 characters renders as
its first 97 characters followed by the `...` marker (and that prefix really
has 97 characters), while a right-hand text of length at most 100 renders in
full. -/
theorem c4_type_alias_truncation (node : Node) (source : List Char) (nn v : Node)
    (hn : find_child node "type_identifier" = some nn)
    (hv : node.children.find? (fun c =>
      !((["export", "type", "type_identifier", "type_parameters", "="] : List String).contains c.type)) = some v) :
    (100 < (get_text v source).length →
      extract_type_alias node source = some
        { kind := "type", name := get_text nn source,
          signature := "export type " ++ get_text nn source ++ type_params_str node source ++
            " = " ++ ((get_text v source).take 97 ++ "...") } ∧
      ((get_text v source).take 97).length = 97) ∧
    ((get_text v source).length ≤ 100 →
      extract_type_alias node source = some
        { kind := "type", name := get_text nn source,
          signature := "export type " ++ get_text nn source ++ type_params_str node source ++
            " = " ++ get_text v source }) := by
  have htv : type_value_of node source = get_text v source := by
    simp only [type_value_of, hv]
  constructor
  · intro hlen
    refine ⟨?_, ?_⟩
    · simp only [extract_type_alias, hn, htv, truncate_type_value, if_pos hlen]
    · rw [string_length_take]
      exact Nat.min_eq_left (by omega)
  · intro hlen
    have hng : ¬ (get_text v source).length > 100 := by omega
    simp only [extract_type_alias, hn, htv, truncate_type_value, if_neg hng]

set_option maxRecDepth 8000 in
theorem c4_type_alias_truncation_witness :
    extract_type_alias c4_alias_long c4_source_long = some
      { kind := "type", name := "T",
        signature := "export type T = " ++ (String.mk (List.replicate 97 'a') ++ "...") } ∧
    ((get_text c4_value_long c4_source_long).take 97).length = 97 ∧
    extract_type_alias c4_alias_short c4_source_short = some
      { kind := "type", name := "Id", signature := "export type Id = string" } := by
  refine ⟨?_, ?_, ?_⟩
  · exact (((c4_type_alias_truncation c4_alias_long c4_source_long c4_name_long c4_value_long
      rfl rfl).1 (by decide)).1).trans (by decide)
  · exact ((c4_type_alias_truncation c4_alias_long c4_source_long c4_name_long c4_value_long
      rfl rfl).1 (by decide)).2
  · exact ((c4_type_alias_truncation c4_alias_short c4_source_short c4_name_short c4_value_short
      rfl rfl).2 (by decide)).trans (by decide)

/-- C5: a composite export (class, interface, enum) with a non-empty member
list renders as its signature line plus a brace-delimited block listing the
first 10 members, two-space indented, with the `// ... and N more` marker
present exactly when more than 10 members exist; the block really holds
`min 10 n` member lines. -/
theorem c5_member_elision (e : ExportedItem)
    (hk : e.kind ∈ (["class", "interface", "enum"] : List String))
    (hm : e.methods ≠ []) :
    format_export e = e.signature ++ " \x7b\n" ++
      (if e.methods.length > 10 then
        String.intercalate "\n" ((e.methods.take 10).map (fun m => "  " ++ m)) ++
          "\n  // ... and " ++ toString (e.methods.length - 10) ++ " more"
      else String.intercalate "\n" ((e.methods.take 10).map (fun m => "  " ++ m))) ++
      "\n\x7d" ∧
    (e.methods.take 10).length = min 10 e.methods.length := by
  have hk' : (["class", "interface", "enum"] : List String).contains e.kind = true := by
    simpa using hk
  have hm' : e.methods.isEmpty = false := by
    simpa using hm
  constructor
  · unfold format_export
    rw [if_pos (by rw [hk', hm']; rfl)]
  · simp [List.length_take]

theorem c5_member_elision_witness :
    format_export
      { kind := "class", name := "C", signature := "export class C",
        methods := ["m1", "m2", "m3", "m4", "m5", "m6", "m7", "m8", "m9", "m10", "m11", "m12"] } =
    "export class C \x7b\n  m1\n  m2\n  m3\n  m4\n  m5\n  m6\n  m7\n  m8\n  m9\n  m10\n  // ... and 2 more\n\x7d" := by
  rw [(c5_member_elision _ (by decide) (by decide)).1]
  decide

/-- C6 counterexample: the claim prescribes the signature
`export KEYWORD NAME = (PARAMS)[: RETURN] => ...` for every function-valued
initializer, arrow functions and function expressions alike. For a
function-expression initializer the code (indexer.py lines 397–402) instead
renders `export KEYWORD NAME = function(PARAMS)[: RETURN]`:
`export const f = function(x: number): number \x7b return x; \x7d;` yields
that signature, not the claimed arrow form
`export const f = (x: number): number => ...`. -/
theorem c6_function_expression_counterexample :
    extract_variable_declarator c6fx_decl c6fx_source "const" = some
      { kind := "function", name := "f",
        signature := "export const f = function(x: number): number" } ∧
    "export const f = function(x: number): number" ≠
      "export const f = (x: number): number => ..." := by
  decide

/-- C6 (amended): a top-level exported const/let declarator with a bindable
identifier whose initializer is a function value yields one item of kind
`function` with the body never rendered; the signature is
`export KEYWORD NAME = (PARAMS)[: RETURN] => ...` when the initializer is an
arrow function, but `export KEYWORD NAME = function(PARAMS)[: RETURN]` when it
is a function expression. `var` declarators never reach this rendering at
all: tree-sitter wraps them in a `variable_declaration` node, which the
export-statement dispatch ignores, so they yield no item. -/
theorem c6_function_value_initializer :
    (∀ (node v nn p : Node) (source : List Char) (keyword : String),
        find_child node "identifier" = some nn →
        node.children.find? (fun c =>
          (["arrow_function", "function_expression", "function"] : List String).contains c.type) =
            some v →
        v.type = "arrow_function" →
        find_child v "formal_parameters" = some p →
        extract_variable_declarator node source keyword = some
          { kind := "function", name := get_text nn source,
            signature := "export " ++ keyword ++ " " ++ get_text nn source ++ " = " ++
              get_text p source ++ annotation_str v source ++ " => ..." }) ∧
    (∀ (node v nn : Node) (source : List Char) (keyword : String),
        find_child node "identifier" = some nn →
        node.children.find? (fun c =>
          (["arrow_function", "function_expression", "function"] : List String).contains c.type) =
            some v →
        v.type ≠ "arrow_function" →
        extract_variable_declarator node source keyword = some
          { kind := "function", name := get_text nn source,
            signature := "export " ++ keyword ++ " " ++ get_text nn source ++ " = function" ++
              params_str v source ++ annotation_str v source }) ∧
    (∀ (b : Bool) (ch : Node) (source : List Char),
        ch.type = "variable_declaration" →
        dispatch_export_child b ch source = []) := by
  refine ⟨?_, ?_, ?_⟩
  · intro node v nn p source keyword hn hv ha hp
    unfold extract_variable_declarator arrow_params_str
    simp only [hn, hv, ha, hp]
    rfl
  · intro node v nn source keyword hn hv ha
    have ha' : (v.type == "arrow_function") = false := by simp [ha]
    unfold extract_variable_declarator
    simp only [hn, hv, ha']
    rfl
  · intro b ch source hch
    exact dispatch_not_supported b ch source (by rw [hch]; decide)

theorem c6_function_value_initializer_witness :
    extract_variable_declarator scenarioB_decl scenarioB_source "const" = some
      { kind := "function", name := "fn", signature := "export const fn = (x: number) => ..." } ∧
    extract_variable_declarator c6fx_decl c6fx_source "const" = some
      { kind := "function", name := "f",
        signature := "export const f = function(x: number): number" } ∧
    dispatch_export_child false ⟨"variable_declaration", 7, 17, []⟩ c9var_source = [] := by
  refine ⟨?_, ?_, ?_⟩
  · exact (c6_function_value_initializer.1 scenarioB_decl scenarioB_arrow scenarioB_name
      scenarioB_params scenarioB_source "const" rfl rfl rfl rfl).trans (by decide)
  · exact (c6_function_value_initializer.2.1 c6fx_decl c6fx_value c6fx_name c6fx_source "const"
      rfl rfl (by decide)).trans (by decide)
  · exact c6_function_value_initializer.2.2 false ⟨"variable_declaration", 7, 17, []⟩
      c9var_source rfl

/-- C7 counterexample: the claim that a produced signature never contains an
embedded newline fails — signatures are built from verbatim source slices, and
`export type T = \x7b ... \x7d` written across three lines yields one item
whose signature contains a newline character. -/
theorem c7_signature_newline_counterexample :
    (extract_exports c7_tree c7_source).map (fun i => i.signature.data.contains '\n') = [true] := by
  decide

/-- C7 (amended): for every tree and source buffer, every produced
ExportedItem has a kind from the closed set
{function, class, interface, type, enum, const, variable} and a non-empty
member list only for kind class, interface, or enum; the no-embedded-newline
part of the claim is false, since signatures carry verbatim source slices that
may span lines. -/
theorem c7_kind_closed_members_composite :
    ∀ (tree : Node) (source : List Char) (item : ExportedItem),
      item ∈ extract_exports tree source →
      item.kind ∈ kinds_closed ∧
        (item.methods ≠ [] → item.kind ∈ (["class", "interface", "enum"] : List String)) := by
  intro tree source item h
  simp only [extract_exports, List.mem_flatMap] at h
  obtain ⟨e, _, he⟩ := h
  exact process_export_statement_fields e source item he

theorem c7_kind_closed_members_composite_witness :
    c7_item.kind ∈ kinds_closed ∧
      (c7_item.methods ≠ [] → c7_item.kind ∈ (["class", "interface", "enum"] : List String)) :=
  c7_kind_closed_members_composite c7_tree c7_source c7_item (by decide)

/-- C8: a file whose read/parse step (or traversal) raises contributes no
FileIndex entry at all, and the run over any file list containing it produces
exactly the indices the same run without it produces — sibling files are
indexed as if the failing file were absent. -/
theorem c8_fault_isolation (pre post : List CandidateFile) (f : CandidateFile)
    (herr : f.parsed = Except.error ()) :
    index_file f = none ∧
      index_all_files (pre ++ f :: post) = index_all_files (pre ++ post) := by
  have hf : index_file f = none := by
    unfold index_file
    cases hl : get_language_for_file f.path with
    | none => rfl
    | some language =>
      simp only [herr]
      split <;> rfl
  refine ⟨hf, ?_⟩
  unfold index_all_files
  rw [List.filterMap_append, List.filterMap_append, List.filterMap_cons]
  simp [hf]

theorem c8_fault_isolation_witness :
    index_file c8_bad = none ∧
      index_all_files [c8_good, c8_bad, c8_other] = index_all_files [c8_good, c8_other] :=
  c8_fault_isolation [c8_good] [c8_other] c8_bad rfl

/-- C9 counterexample: `export var x = 1;` is a top-level exported declaration
of a spec-supported kind (the §4.2 table lists const/let/var declarators) with
a bindable identifier, yet extraction emits zero items, not one: tree-sitter
parses `var` as a `variable_declaration` node, which
`_process_export_statement` (indexer.py lines 92–119) never dispatches. The
second conjunct shows the declarator itself would extract fine if it were ever
reached, so the zero yield comes purely from the dispatch omission. -/
theorem c9_var_declaration_counterexample :
    extract_exports c9var_tree c9var_source = [] ∧
    extract_variable_declarator c9var_decl c9var_source "var" = some
      { kind := "variable", name := "x", signature := "export var x" } := by
  decide

/-- C9 (amended): extraction is restricted to top-level export statements and
emits one item per declaration the dispatch supports: (a) a top-level child
that is not an export statement — whatever declarations it contains, nested at
any depth — changes nothing about the extraction result; (b) an export
statement wrapping one declaration from the dispatch set whose name is
locatable yields exactly one ExportedItem; (c) an export statement wrapping
only nodes outside the dispatch set — in particular the
`variable_declaration` node of an `export var` statement, although the spec's
supported-kind table covers var declarators — yields zero items. -/
theorem c9_top_level_exported_only :
    (∀ (t : String) (sb eb : Nat) (pre post : List Node) (c : Node) (source : List Char),
        c.type ≠ "export_statement" →
        extract_exports ⟨t, sb, eb, pre ++ c :: post⟩ source =
          extract_exports ⟨t, sb, eb, pre ++ post⟩ source) ∧
    (∀ (sb eb : Nat) (kw d : Node) (source : List Char),
        ¬ kw.type ∈ supported_decl_types → named_supported_decl d →
        (process_export_statement ⟨"export_statement", sb, eb, [kw, d]⟩ source).length = 1) ∧
    (∀ (sb eb : Nat) (kw d : Node) (source : List Char),
        ¬ kw.type ∈ supported_decl_types → ¬ d.type ∈ supported_decl_types →
        process_export_statement ⟨"export_statement", sb, eb, [kw, d]⟩ source = []) := by
  refine ⟨?_, ?_, ?_⟩
  · intro t sb eb pre post c source hc
    have hcb : (c.type == "export_statement") = false := by simp [hc]
    simp [extract_exports, List.filter_append, List.filter_cons, hcb]
  · intro sb eb kw d source hk hd
    simp only [process_export_statement]
    rw [List.flatMap_cons, List.flatMap_cons, List.flatMap_nil, List.append_nil,
      dispatch_not_supported _ kw source hk, List.nil_append]
    exact dispatch_named_supported_length _ d source hd
  · intro sb eb kw d source hk hd
    simp only [process_export_statement]
    rw [List.flatMap_cons, List.flatMap_cons, List.flatMap_nil, List.append_nil,
      dispatch_not_supported _ kw source hk, dispatch_not_supported _ d source hd,
      List.nil_append]

theorem c9_top_level_exported_only_witness :
    extract_exports ⟨"program", 0, 65, [scenarioA_fn, scenarioA_export]⟩ scenarioA_source =
      extract_exports ⟨"program", 0, 65, [scenarioA_export]⟩ scenarioA_source ∧
    (process_export_statement scenarioA_export scenarioA_source).length = 1 ∧
    process_export_statement c9var_export c9var_source = [] := by
  refine ⟨?_, ?_, ?_⟩
  · exact c9_top_level_exported_only.1 "program" 0 65 [] [scenarioA_export] scenarioA_fn
      scenarioA_source (by decide)
  · exact c9_top_level_exported_only.2.1 0 65 ⟨"export", 0, 6, []⟩ scenarioA_fn scenarioA_source
      (by decide) (by decide)
  · exact c9_top_level_exported_only.2.2 0 17 ⟨"export", 0, 6, []⟩ c9var_declaration
      c9var_source (by decide) (by decide)

/-- C10: an exported const/let declarator whose initializer is an arrow
function with a single parameter written without parentheses (no
`formal_parameters` child) renders that parameter wrapped in parentheses:
`export KEYWORD NAME = (PARAM)[: RETURN] => ...`. -/
theorem c10_bare_parameter_wrapped (node v nn pn : Node) (source : List Char) (keyword : String)
    (hn : find_child node "identifier" = some nn)
    (hv : node.children.find? (fun c =>
      (["arrow_function", "function_expression", "function"] : List String).contains c.type) = some v)
    (ha : v.type = "arrow_function")
    (hp : find_child v "formal_parameters" = none)
    (hq : find_child v "identifier" = some pn) :
    extract_variable_declarator node source keyword = some
      { kind := "function", name := get_text nn source,
        signature := "export " ++ keyword ++ " " ++ get_text nn source ++ " = " ++
          ("(" ++ get_text pn source ++ ")") ++ annotation_str v source ++ " => ..." } := by
  unfold extract_variable_declarator arrow_params_str
  simp only [hn, hv, ha, hp, hq]
  rfl

theorem c10_bare_parameter_wrapped_witness :
    extract_variable_declarator c10_decl c10_source "const" = some
      { kind := "function", name := "id", signature := "export const id = (x) => ..." } :=
  (c10_bare_parameter_wrapped c10_decl c10_arrow c10_name c10_param c10_source "const"
    rfl rfl rfl rfl rfl).trans (by decide)

end Twiggy
